import Mathlib

/-!
Shallow embedding of the Capstone repository's ingestion/query core, and
proofs about it.

Python strings are modelled as `List Char` (`String.data` at the
boundaries); `str.split`, `str.strip`, `in`, `startswith` and `float()` are
embedded below.  Python `float` values carried by the grid pipeline are
modelled as `Option ℚ` with `none` standing for NaN (the only NaN source in
this code is pandas padding a short row); `float()` of a decimal literal is
exact here, which is faithful for every comparison the code performs
(`> 0`, equality of dataframe cells).  `datetime`/`Timestamp` values are
modelled as integers.  Fallible Python code returns `Except PyError _`.
-/

namespace Capstone

set_option maxRecDepth 40000

/-- Python exceptions that the modelled code can raise. -/
inductive PyError
  | indexError
  | valueError
  | keyError
  /-- pandas `ValueError: N columns passed, passed data had M columns`. -/
  | pdColumnsError
  /-- pandas `ValueError: Shape of passed values ..., indices imply ...`. -/
  | pdShapeError
deriving DecidableEq

/-- Python whitespace, as `str.strip()` and no-argument `str.split()` see it. -/
def pyIsSpace (c : Char) : Bool :=
  c = ' ' || c = '\t' || c = '\n' || c = '\r' || c = '\x0b' || c = '\x0c'

/-- python `str.strip()`: drop leading and trailing whitespace. -/
def pyStrip (l : List Char) : List Char :=
  ((l.dropWhile pyIsSpace).reverse.dropWhile pyIsSpace).reverse

/-- python `str.startswith(pre)`. -/
def pyStartsWith (pre l : List Char) : Bool :=
  pre.isPrefixOf l

/-- Worker for `pySplitOnStr`: split at each leftmost occurrence of the
separator `s0 :: srest`, accumulating the current segment reversed.  The
fuel argument (structural recursion, so the kernel can evaluate it) starts
at the input length; every step consumes at least one character, so the
fuel-exhausted branch is never reached. -/
def pySplitAux (s0 : Char) (srest : List Char) : ℕ → List Char → List Char → List (List Char)
  | _, acc, [] => [acc.reverse]
  | 0, acc, rest => [acc.reverse ++ rest]
  | fuel + 1, acc, c :: r =>
    if (s0 :: srest).isPrefixOf (c :: r) then
      acc.reverse :: pySplitAux s0 srest fuel [] (r.drop srest.length)
    else
      pySplitAux s0 srest fuel (c :: acc) r

/-- python `s.split(sep)` for a nonempty separator: splits at every
nonoverlapping occurrence, keeping empty segments (so the result has at
least one segment, and more than one exactly when `sep` occurs in `s`). -/
def pySplitOnStr (sep : List Char) (l : List Char) : List (List Char) :=
  match sep with
  | [] => [l]
  | s0 :: srest => pySplitAux s0 srest l.length [] l

/-- python `sub in s` (for the nonempty literals this code uses): the
separator occurs iff splitting on it yields more than one segment. -/
def containsSub (pat l : List Char) : Bool :=
  decide (1 < (pySplitOnStr pat l).length)

/-- python no-argument `str.split()`: maximal runs of non-whitespace. -/
def pySplitWs (l : List Char) : List (List Char) :=
  (l.splitOnP pyIsSpace).filter (fun t => !t.isEmpty)

/-- Decimal digits to a natural number. -/
def digitsToNat (l : List Char) : Nat :=
  l.foldl (fun n c => 10 * n + (c.toNat - 48)) 0

/-- python `float(tok)` on the decimal literals the grid format carries:
optional sign, integer part, optional fractional part ("1", "-2", "0.5",
"1.", ".5").  `none` models the `ValueError` python raises on a malformed
token. -/
def pyFloat (tok : List Char) : Option ℚ :=
  let sb : ℤ × List Char :=
    match tok with
    | '-' :: r => (-1, r)
    | '+' :: r => (1, r)
    | _ => (1, tok)
  let sign := sb.1
  let body := sb.2
  let ip := body.takeWhile Char.isDigit
  let rest := body.dropWhile Char.isDigit
  match rest with
  | [] =>
    if ip.isEmpty then none
    else some (mkRat (sign * (digitsToNat ip : ℤ)) 1)
  | '.' :: rest2 =>
    let fp := rest2.takeWhile Char.isDigit
    let rest3 := rest2.dropWhile Char.isDigit
    if !rest3.isEmpty || (ip.isEmpty && fp.isEmpty) then none
    else
      some (mkRat (sign * ((digitsToNat ip * 10 ^ fp.length + digitsToNat fp : ℕ) : ℤ))
        (10 ^ fp.length))
  | _ => none

/-! ## `src/prefect/flows/d_rap_etl/transformers.py` -/

/-- The fixed latitude bands (`transformers.lat`). -/
def lat : List ℤ :=
  [89, 87, 85, 83, 81, 79, 77, 75, 73, 71,
   69, 67, 65, 63, 61, 59, 57, 55, 53, 51,
   49, 47, 45, 43, 41, 39, 37, 35, 33, 31,
   29, 27, 25, 23, 21, 19, 17, 15, 13, 11,
   9, 7, 5, 3, 1, -1, -3, -5, -7, -9,
   -11, -13, -15, -17, -19, -21, -23, -25, -27, -29,
   -31, -33, -35, -37, -39, -41, -43, -45, -47, -49,
   -51, -53, -55, -57, -59, -61, -63, -65, -67, -69,
   -71, -73, -75, -77, -79, -81, -83, -85, -87, -89]

/-- The fixed longitude bands (`transformers.long`). -/
def long : List ℤ :=
  [-178, -174, -170, -166, -162, -158, -154, -150, -146, -142,
   -138, -134, -130, -126, -122, -118, -114, -110, -106, -102,
   -98, -94, -90, -86, -82, -78, -74, -70, -66, -62,
   -58, -54, -50, -46, -42, -38, -34, -30, -26, -22,
   -18, -14, -10, -6, -2, 2, 6, 10, 14, 18,
   22, 26, 30, 34, 38, 42, 46, 50, 54, 58,
   62, 66, 70, 74, 78, 82, 86, 90, 94, 98,
   102, 106, 110, 114, 118, 122, 126, 130, 134, 138,
   142, 146, 150, 154, 158, 162, 166, 170, 174, 178]

/-- The metadata dictionary `parse_drap_data` builds (each key absent until
its comment line is seen). -/
structure Metadata where
  product : Option String
  valid_at : Option String
  recovery_time : Option String
  xray_message : Option String
  xray_warning : Option String
  proton_message : Option String
deriving DecidableEq

def emptyMetadata : Metadata :=
  ⟨none, none, none, none, none, none⟩

/-- python `parts[1]`: `IndexError` when the split had no second element. -/
def pySecond (parts : List (List Char)) : Except PyError (List Char) :=
  match parts with
  | _ :: x :: _ => .ok x
  | _ => .error .indexError

/-- The metadata branch of `parse_drap_data`'s line loop (the `if/elif`
chain run on every line that starts with `#`).  Each branch checks a
substring and then indexes `[1]` of a split on a longer separator, so a
line containing the probe text but not the full separator raises
`IndexError`, exactly as the python does. -/
def updateMetadata (md : Metadata) (line : List Char) : Except PyError Metadata :=
  if containsSub ("Product:".data) line then
    match pySecond (pySplitOnStr ("Product:".data) line) with
    | .error e => .error e
    | .ok x =>
      .ok { md with product := some (String.mk (pyStrip ((pySplitOnStr ("/".data) x).headD []))) }
  else if containsSub ("Product Valid At".data) line then
    match pySecond (pySplitOnStr ("Product Valid At :".data) line) with
    | .error e => .error e
    | .ok x => .ok { md with valid_at := some (String.mk (pyStrip x)) }
  else if containsSub ("Estimated Recovery Time".data) line then
    match pySecond (pySplitOnStr ("Estimated Recovery Time :".data) line) with
    | .error e => .error e
    | .ok x => .ok { md with recovery_time := some (String.mk (pyStrip x)) }
  else if containsSub ("X-RAY Message".data) line then
    match pySecond (pySplitOnStr ("X-RAY Message :".data) line) with
    | .error e => .error e
    | .ok x => .ok { md with xray_message := some (String.mk (pyStrip x)) }
  else if containsSub ("X-RAY Warning".data) line then
    match pySecond (pySplitOnStr ("X-RAY Warning :".data) line) with
    | .error e => .error e
    | .ok x => .ok { md with xray_warning := some (String.mk (pyStrip x)) }
  else if containsSub ("Proton Message".data) line then
    match pySecond (pySplitOnStr ("Proton Message :".data) line) with
    | .error e => .error e
    | .ok x => .ok { md with proton_message := some (String.mk (pyStrip x)) }
  else .ok md

/-- The metadata half of one iteration of `parse_drap_data`'s line loop:
the `if/elif` chain runs only on lines that start with `#`. -/
def lineMeta (md : Metadata) (line : List Char) : Except PyError Metadata :=
  if pyStartsWith ("#".data) line then updateMetadata md line else .ok md

/-- The data half of one iteration of the line loop, on the stripped line:
separator/blank/comment lines contribute nothing; a line with exactly one
`|` contributes the floats after the `|` (a malformed float raises
`ValueError`); any other line contributes nothing. -/
def lineData (line : List Char) : Except PyError (Option (List ℚ)) :=
  let l := pyStrip line
  if containsSub ("--------".data) l || l.isEmpty || pyStartsWith ("#".data) l then .ok none
  else
    let parts := pySplitOnStr ("|".data) l
    if parts.length == 2 then
      match (pySplitWs (pyStrip (parts.getD 1 []))).mapM (fun t =>
          match pyFloat t with
          | some q => Except.ok q
          | none => Except.error PyError.valueError) with
      | .error e => .error e
      | .ok vals => .ok (some vals)
    else .ok none

/-- The line loop of `parse_drap_data`: for each line, metadata extraction
on the raw line, then the data-row step on the stripped line; a python
exception in either aborts the whole parse. -/
def processLines : List (List Char) → Metadata → List (List ℚ) →
    Except PyError (Metadata × List (List ℚ))
  | [], md, acc => .ok (md, acc)
  | line :: rest, md, acc =>
    match lineMeta md line with
    | .error e => .error e
    | .ok md2 =>
      match lineData line with
      | .error e => .error e
      | .ok none => processLines rest md2 acc
      | .ok (some vals) => processLines rest md2 (acc ++ [vals])

/-- A dataframe cell: `none` is NaN (pandas padding). -/
abbrev Cell := Option ℚ

/-- The wide dataframe `pd.DataFrame(data_rows, columns=long, index=lat)`:
90 rows (one per latitude band) of 90 cells. -/
structure DfWide where
  rows : List (List Cell)
deriving DecidableEq

/-- The column count pandas infers from a list of (possibly ragged) rows:
the maximum row length. -/
def maxWidth (rows : List (List ℚ)) : Nat :=
  (rows.map List.length).foldl max 0

/-- `pd.DataFrame(data_rows, columns=long, index=lat)` on a list of lists:
an empty list with explicit index and columns yields an all-NaN frame; a
nonempty list must have maximum row width equal to `len(columns)`
(`ValueError` otherwise) and row count equal to `len(index)` (`ValueError`
otherwise); rows shorter than the maximum are padded with NaN. -/
def buildWide (data_rows : List (List ℚ)) : Except PyError DfWide :=
  if data_rows.isEmpty then
    .ok ⟨List.replicate lat.length (List.replicate long.length none)⟩
  else
    let width := maxWidth data_rows
    if width ≠ long.length then .error .pdColumnsError
    else if data_rows.length ≠ lat.length then .error .pdShapeError
    else .ok ⟨data_rows.map (fun r => r.map some ++ List.replicate (width - r.length) none)⟩

/-- One row of the long (melted) dataframe: columns `Latitude`,
`Longitude` and the value column. -/
structure LongRow where
  latitude : ℤ
  longitude : ℤ
  value : Cell
deriving DecidableEq

/-- The long dataframe, remembering the name `melt` gave its value column
(`value_name="Absorption"` in the source). -/
structure DfLong where
  value_name : String
  rows : List LongRow
deriving DecidableEq

/-- `df_wide.reset_index().melt(id_vars="Latitude", ...)`: pandas stacks
the value columns one after another, so the output runs through all
latitude rows of the first longitude column, then all rows of the second
column, and so on. -/
def meltRows (w : DfWide) : List LongRow :=
  (List.range long.length).flatMap (fun j =>
    (lat.zip w.rows).map (fun p => ⟨p.1, long.getD j 0, p.2.getD j none⟩))

def meltDf (w : DfWide) : DfLong :=
  ⟨"Absorption", meltRows w⟩

/-- Line-processing stage of `parse_drap_data`: split into lines and run
the loop (metadata and raw data rows, before any dataframe is built). -/
def stage1 (s : String) : Except PyError (Metadata × List (List ℚ)) :=
  processLines (pySplitOnStr ("\n".data) (pyStrip s.data)) emptyMetadata []

/-- `transformers.parse_drap_data`: metadata, the wide dataframe and the
melted long dataframe. -/
def parse_drap_data (s : String) : Except PyError (Metadata × DfWide × DfLong) :=
  match stage1 s with
  | .error e => .error e
  | .ok (md, data_rows) =>
    match buildWide data_rows with
    | .error e => .error e
    | .ok w => .ok (md, w, meltDf w)

/-! ## `src/prefect/flows/d_rap_etl/loaders.py` -/

/-- One row of the `drap_region` table: `(observed_at, location, frequency_mhz)`,
keyed by `(observed_at, location)` with `location = POINT(lon, lat)`. -/
structure SnapRecord where
  observed_at : ℤ
  lon : Cell
  lat : Cell
  frequency_mhz : Cell
deriving DecidableEq

/-- A scalar read out of a long-dataframe row by column name. -/
inductive PyVal
  | intv (z : ℤ)
  | floatv (c : Cell)
deriving DecidableEq

/-- `row[key]` on a row of the melted dataframe, whose columns are
`Latitude`, `Longitude` and the melt's value column; any other key raises
`KeyError`. -/
def rowGet (vname : String) (r : LongRow) (key : String) : Except PyError PyVal :=
  if key = "Latitude" then .ok (.intv r.latitude)
  else if key = "Longitude" then .ok (.intv r.longitude)
  else if key = vname then .ok (.floatv r.value)
  else .error .keyError

/-- python `float(v)` on a value already held by the dataframe. -/
def pyFloatOfVal : PyVal → Cell
  | .intv z => some (z : ℚ)
  | .floatv c => c

/-- python `v > 0` for a float that may be NaN (NaN compares false). -/
def gtZero : Cell → Bool
  | none => false
  | some q => decide (0 < q)

/-- One iteration of `loaders.insert_drap_data`'s records comprehension:
read `row["Frequency_MHz"]` (the `if` clause runs first, so a missing
column raises `KeyError` before anything else), keep the row iff the value
is `> 0`. -/
def insertStep (vname : String) (observed_at : ℤ) (acc : List SnapRecord) (r : LongRow) :
    Except PyError (List SnapRecord) :=
  match rowGet vname r "Frequency_MHz" with
  | .error e => .error e
  | .ok fv =>
    if gtZero (pyFloatOfVal fv) then
      match rowGet vname r "Longitude", rowGet vname r "Latitude" with
      | .ok lonv, .ok latv =>
        .ok (acc ++ [⟨observed_at, pyFloatOfVal lonv, pyFloatOfVal latv, pyFloatOfVal fv⟩])
      | .error e, _ => .error e
      | _, .error e => .error e
    else .ok acc

/-- `loaders.insert_drap_data`: run the comprehension over every row of the
long dataframe, stamping every record with the one `observed_at` taken at
the top of the call. -/
def insert_drap_data (df : DfLong) (observed_at : ℤ) : Except PyError (List SnapRecord) :=
  df.rows.foldlM (insertStep df.value_name observed_at) []

/-- `(observed_at, location)` natural-key equality of two `drap_region` rows. -/
def snapKeyMatch (a b : SnapRecord) : Bool :=
  decide (a.observed_at = b.observed_at ∧ a.lon = b.lon ∧ a.lat = b.lat)

/-- One `INSERT ... ON CONFLICT (observed_at, location) DO UPDATE SET
frequency_mhz = EXCLUDED.frequency_mhz`: last write wins on the value. -/
def upsertOne (db : List SnapRecord) (r : SnapRecord) : List SnapRecord :=
  if db.any (fun x => snapKeyMatch x r) then
    db.map (fun x => if snapKeyMatch x r then { x with frequency_mhz := r.frequency_mhz } else x)
  else db ++ [r]

/-- `conn.executemany` of the upsert statement over the records, in order. -/
def upsertAll (db : List SnapRecord) (rs : List SnapRecord) : List SnapRecord :=
  rs.foldl upsertOne db

/-! ## `src/prefect/flows/d_rap_extract.py` -/

/-- python `last_seen == current` where `last_seen` is the stored marker
(possibly `None`) and `current` is always a string: `None == s` is `False`. -/
def pyEqOptStr : Option String → String → Bool
  | none, _ => false
  | some t, s => t == s

/-- What one run of `rap_extract_flow` leaves behind: the `drap_region`
table, the `data_last_updated` Prefect variable, whether the load branch
completed, and the python exception that aborted the run, if any. -/
structure FlowResult where
  db : List SnapRecord
  marker : Option String
  loaded : Bool
  err : Option PyError
deriving DecidableEq

/-- `rap_extract_flow`: parse, compare `metadata.get("valid_at", "Unknown")`
against the stored marker under exact string equality, and either skip or
load-then-commit-marker.  A python exception in any task aborts the flow
with the store and marker untouched (the marker is set only after
`load_data` returns). -/
def rap_extract_flow (last_seen : Option String) (input : String) (observed_at : ℤ)
    (db : List SnapRecord) : FlowResult :=
  match parse_drap_data input with
  | .error e => ⟨db, last_seen, false, some e⟩
  | .ok (md, _, dfl) =>
    let current := md.valid_at.getD "Unknown"
    if pyEqOptStr last_seen current then ⟨db, last_seen, false, none⟩
    else
      match insert_drap_data dfl observed_at with
      | .error e => ⟨db, last_seen, false, some e⟩
      | .ok recs => ⟨upsertAll db recs, some current, true, none⟩

/-! ## `src/prefect/flows/flights_capture.py` -/

/-- The non-key columns of a `flight_states` row, in the insert statement's
order (`sensors` is always `None` in `clean_row`). -/
structure FlightPayload where
  callsign : Option String
  origin_country : Option String
  time_pos : Option ℤ
  lat : Option ℚ
  lon : Option ℚ
  geo_altitude : Option ℚ
  baro_altitude : Option ℚ
  velocity : Option ℚ
  heading : Option ℚ
  vert_rate : Option ℚ
  on_ground : Bool
  squawk : Option String
  spi : Bool
  source : Option ℤ
  sensors : Option Unit
  geom_lon : Option ℚ
  geom_lat : Option ℚ
deriving DecidableEq

/-- A stored `flight_states` row.  The DDL of `flight_states` is not in the
repository; the row shape here is the insert statement's column list with
`time` known non-null (only cleaned records with a timestamp are inserted). -/
structure TelemetryRow where
  time : ℤ
  icao24 : String
  payload : FlightPayload
deriving DecidableEq

/-- One raw OpenSky dataframe row, holding exactly the fields `clean_row`
reads; `none` models a missing/NaN/`None` value.  (String fields: python's
`get_val` also maps an empty string to `None`.) -/
structure RawRow where
  timestamp : Option ℤ
  icao24 : Option String
  callsign : Option String
  origin_country : Option String
  last_position : Option ℤ
  latitude : Option ℚ
  longitude : Option ℚ
  geoaltitude : Option ℚ
  altitude : Option ℚ
  groundspeed : Option ℚ
  track : Option ℚ
  vertical_rate : Option ℚ
  onground : Option Bool
  squawk : Option String
  spi : Option Bool
  position_source : Option ℤ
deriving DecidableEq

/-- `clean_row`'s `get_val(key, str)`: missing, `None`, NaN or `""` become
`None`; `str()` of a string never fails. -/
def getValStr : Option String → Option String
  | none => none
  | some s => if s = "" then none else some s

/-- python `str(x)` where `x` is `row.get("icao24")`: a present string is
itself, an absent value is `None` and stringifies to `"None"`. -/
def pyStrOfOpt : Option String → String
  | none => "None"
  | some s => s

/-- python `bool(row.get(key, False))` for the boolean columns. -/
def pyBoolDefaultFalse : Option Bool → Bool
  | none => false
  | some b => b

/-- `clean_row`'s output before the timestamp/id filter: `time` may still
be `None`. -/
structure CleanedRow where
  time : Option ℤ
  icao24 : String
  payload : FlightPayload
deriving DecidableEq

/-- `flights_capture.clean_row`: normalize one raw row into the insert
tuple.  Note `icao24` is `str(row.get("icao24")).strip()` — an absent id
becomes the literal string `"None"`. -/
def clean_row (row : RawRow) : CleanedRow :=
  ⟨row.timestamp,
   String.mk (pyStrip (pyStrOfOpt row.icao24).data),
   ⟨getValStr row.callsign, getValStr row.origin_country, row.last_position,
    row.latitude, row.longitude, row.geoaltitude, row.altitude, row.groundspeed,
    row.track, row.vertical_rate, pyBoolDefaultFalse row.onground,
    getValStr row.squawk, pyBoolDefaultFalse row.spi, row.position_source,
    none, row.longitude, row.latitude⟩⟩

/-- `(time, icao24)` natural-key match of a stored `flight_states` row. -/
def flightKey (t : ℤ) (id : String) (x : TelemetryRow) : Bool :=
  decide (x.time = t ∧ x.icao24 = id)

/-- Modelled from the spec: the `flight_states` DDL (its unique
constraint) is not in the repository — only the insert's bare
`ON CONFLICT DO NOTHING` is.  Per the spec the natural key is
`(time, entity_id)`, so one insert is suppressed exactly when a row with
the same `(time, icao24)` already exists, and never overwrites it. -/
def insertOneFlight (db : List TelemetryRow) (r : TelemetryRow) : List TelemetryRow :=
  if db.any (flightKey r.time r.icao24) then db else db ++ [r]

/-- `conn.executemany` of the `ON CONFLICT DO NOTHING` insert: one insert
per record, in batch order, each seeing the rows the earlier ones added. -/
def insertFlights (db : List TelemetryRow) (rs : List TelemetryRow) : List TelemetryRow :=
  rs.foldl insertOneFlight db

/-- A cleaned record that passed the filter, as a storable row. -/
def toStored (r : CleanedRow) : Option TelemetryRow :=
  match r.time with
  | some t => some ⟨t, r.icao24, r.payload⟩
  | none => none

/-- What one `insert_batch` call did to the database: the new table,
the timestamp `create_partition_if_missing` was called with (`none` = the
call never reached the database), and how many records were handed to
`executemany`. -/
structure IngestResult where
  db : List TelemetryRow
  partitionCall : Option ℤ
  attempted : ℕ
deriving DecidableEq

/-- The database half of `insert_batch`, given the cleaned-and-filtered
records: nothing left means returning before any database work; otherwise
the partition for `records[0][0]` is ensured and the records inserted with
conflict suppression. -/
def batchInsertCleaned (cleaned : List CleanedRow) (db : List TelemetryRow) : IngestResult :=
  if cleaned.isEmpty then ⟨db, none, 0⟩
  else
    let stored := cleaned.filterMap toStored
    ⟨insertFlights db stored,
     (match stored with | s :: _ => some s.time | [] => none),
     stored.length⟩

/-- `flights_capture.insert_batch`: an empty dataframe returns before any
database work; rows are cleaned, rows whose tuple fails
`r[0] is not None and r[1]` are dropped, and the rest are handed to the
database step. -/
def insert_batch (df : List RawRow) (db : List TelemetryRow) : IngestResult :=
  if df.isEmpty then ⟨db, none, 0⟩
  else
    batchInsertCleaned ((df.map clean_row).filter (fun r => !r.time.isNone && r.icao24 != "")) db

/-! ## `src/backend/api/main.py` (read API) -/

/-- An endpoint outcome: a 200 payload, the 404 "no data" signal, or the
500 infrastructure-error response. -/
inductive ApiResult (α : Type)
  | ok (a : α)
  | notFound (detail : String)
  | serverError (detail : String)
deriving DecidableEq

/-- SQL `MAX` over a column: `NULL` (`none`) on an empty table. -/
def sqlMax (l : List ℤ) : Option ℤ :=
  l.foldl (fun acc t =>
    match acc with
    | none => some t
    | some m => some (max m t)) none

/-- PostgreSQL `ROUND(x::numeric, n)` (half away from zero) on a possibly
NULL column. -/
def pgRound (n : ℕ) : Option ℚ → Option ℚ
  | none => none
  | some q =>
    let s : ℚ := q * (10 : ℚ) ^ n
    let r : ℤ := if 0 ≤ s then ⌊s + 1 / 2⌋ else -⌊-s + 1 / 2⌋
    some ((r : ℚ) / (10 : ℚ) ^ n)

/-- One element of the flight endpoint's response (`FlightState` model);
timestamps stand for their `isoformat()` strings. -/
structure FlightState where
  icao24 : String
  callsign : Option String
  time : ℤ
  time_pos : Option ℤ
  lat : Option ℚ
  lon : Option ℚ
  geo_altitude : Option ℚ
  velocity : Option ℚ
  heading : Option ℚ
  vert_rate : Option ℚ
  on_ground : Bool
deriving DecidableEq

/-- The flight query's SELECT list applied to one stored row. -/
def toFlightState (r : TelemetryRow) : FlightState :=
  ⟨r.icao24, r.payload.callsign, r.time, r.payload.time_pos,
   pgRound 4 r.payload.lat, pgRound 4 r.payload.lon,
   pgRound 2 r.payload.geo_altitude, pgRound 2 r.payload.velocity,
   pgRound 2 r.payload.heading, pgRound 2 r.payload.vert_rate,
   r.payload.on_ground⟩

/-- `ORDER BY callsign NULLS LAST, icao24` as a boolean order. -/
def flightLE (a b : FlightState) : Bool :=
  match a.callsign, b.callsign with
  | none, none => decide (a.icao24 ≤ b.icao24)
  | none, some _ => false
  | some _, none => true
  | some x, some y => if x = y then decide (a.icao24 ≤ b.icao24) else decide (x ≤ y)

/-- `FlightStatesResponse` (the wall-clock `query_time_ms`/`total_time_ms`
fields are not modelled). -/
structure FlightStatesResponse where
  timestamp : ℤ
  count : ℕ
  flights : List FlightState
deriving DecidableEq

/-- The one SQL statement of the flight endpoint: compute `MAX(time)`,
keep the rows at that time, project and order them — a single consistent
read of one table state. -/
def latestFlightRows (db : List TelemetryRow) : List FlightState :=
  match sqlMax (db.map (fun r => r.time)) with
  | none => []
  | some t => ((db.filter (fun r => r.time == t)).map toFlightState).mergeSort flightLE

/-- `GET /api/v1/flight-states/latest`: a fetch failure becomes the 500
response; an empty result the 404 "No flight data available"; otherwise a
payload whose timestamp is `rows[0]['time']` and whose count is
`len(flights)`. -/
def get_latest_flight_states (fetched : Except String (List TelemetryRow)) :
    ApiResult FlightStatesResponse :=
  match fetched with
  | .error e => .serverError ("Database error: " ++ e)
  | .ok db =>
    match latestFlightRows db with
    | [] => .notFound "No flight data available"
    | r :: rest => .ok ⟨r.time, (r :: rest).length, r :: rest⟩

/-- One GeoJSON feature of the D-RAP endpoint: geometry from `location`,
properties from `observed_at` and `frequency_mhz`. -/
structure DrapFeature where
  lon : Cell
  lat : Cell
  observed_at : ℤ
  frequency : Cell
deriving DecidableEq

def toFeature (r : SnapRecord) : DrapFeature :=
  ⟨r.lon, r.lat, r.observed_at, r.frequency_mhz⟩

/-- The D-RAP endpoint's feature collection. -/
structure DrapResponse where
  timestamp : ℤ
  count : ℕ
  features : List DrapFeature
deriving DecidableEq

/-- `GET /api/v1/drap/latest`: one SQL statement computes `MAX(observed_at)`
and the features at that timestamp; `count == 0 or timestamp is None`
becomes the 404 "No D-RAP data available", a raised exception the 500
response. -/
def get_latest_drap_geojson (fetched : Except String (List SnapRecord)) :
    ApiResult DrapResponse :=
  match fetched with
  | .error e => .serverError ("Database error: " ++ e)
  | .ok db =>
    match sqlMax (db.map (fun r => r.observed_at)) with
    | none => .notFound "No D-RAP data available"
    | some t =>
      let feats := (db.filter (fun r => r.observed_at == t)).map toFeature
      if feats.length == 0 then .notFound "No D-RAP data available"
      else .ok ⟨t, feats.length, feats⟩

/-! ## Retention (`src/backend/api/utils/db_tools.py` and
`src/prefect/flows/db_tools.py`) -/

/-- Seconds per day, fixing a unit for `INTERVAL '{days} days'` over the
integer timestamps of the model. -/
def secondsPerDay : ℤ := 86400

namespace BackendApi

/-- `backend/api/utils/db_tools.cleanup_old_data`: delete the rows with
`time < NOW() - INTERVAL '{days} days'` and return how many were deleted
(parsed out of the `DELETE N` command tag). -/
def cleanup_old_data (db : List TelemetryRow) (now days : ℤ) :
    List TelemetryRow × ℕ :=
  let cutoff := now - days * secondsPerDay
  ((db.filter fun r => !decide (r.time < cutoff)),
   (db.filter fun r => decide (r.time < cutoff)).length)

end BackendApi

namespace FlowsDb

/-- `prefect/flows/db_tools.cleanup_old_data`: delete the rows with
`observed_at < NOW() - INTERVAL '{days} days'`; nothing is returned. -/
def cleanup_old_data (db : List SnapRecord) (now days : ℤ) : List SnapRecord :=
  let cutoff := now - days * secondsPerDay
  db.filter fun r => !decide (r.observed_at < cutoff)

end FlowsDb

/-! ## Specification-side definitions and concrete inputs -/

/-- The point order C9 claims (the spec's "row-major"): for each latitude
band in declared order, all longitude points of that band. -/
def rowMajorPoints (w : DfWide) : List LongRow :=
  (List.range lat.length).flatMap (fun i =>
    (List.range long.length).map (fun j =>
      ⟨lat.getD i 0, long.getD j 0, (w.rows.getD i []).getD j none⟩))

/-- The order the code actually produces (the amended C9's "column-major"):
for each longitude band in declared order, all latitude points of that
band. -/
def colMajorPoints (w : DfWide) : List LongRow :=
  (List.range long.length).flatMap (fun j =>
    (List.range lat.length).map (fun i =>
      ⟨lat.getD i 0, long.getD j 0, (w.rows.getD i []).getD j none⟩))

/-- Element `i` of the long dataframe a successful parse of `s` yields. -/
def meltProbe (s : String) (i : ℕ) : Option LongRow :=
  match parse_drap_data s with
  | .ok (_, _, l) => l.rows.get? i
  | .error _ => none

/-- Element `i` of the row-major enumeration of a successful parse of `s`. -/
def rowMajorProbe (s : String) (i : ℕ) : Option LongRow :=
  match parse_drap_data s with
  | .ok (_, w, _) => (rowMajorPoints w).get? i
  | .error _ => none

/-- The per-data-line value counts the line loop extracts from `s`. -/
def stage1Widths (s : String) : Option (List ℕ) :=
  match stage1 s with
  | .ok (_, rows) => some (rows.map List.length)
  | .error _ => none

/-- Join character lists with a separator character. -/
def joinWith (sep : Char) : List (List Char) → List Char
  | [] => []
  | [x] => x
  | x :: xs => x ++ sep :: joinWith sep xs

/-- A grid data line `"1 | 1 1 ... 1"` with `n` value tokens. -/
def drapLine (n : ℕ) : List Char :=
  '1' :: ' ' :: '|' :: (List.replicate n (' ' :: '1' :: [])).flatten

/-- 90 data lines of 90 values each, except line 45 which has only 89
values: the input of C3's counterexample. -/
def cx3Lines : List (List Char) :=
  List.replicate 45 (drapLine 90) ++ drapLine 89 :: List.replicate 44 (drapLine 90)

def cx3Chars : List Char :=
  joinWith '\n' cx3Lines

def cx3Text : String :=
  String.mk cx3Chars

/-- The value counts of `cx3Text`'s data lines. -/
def cx3Widths : List ℕ :=
  List.replicate 45 90 ++ 89 :: List.replicate 44 90

/-- The data rows `cx3Text`'s line loop extracts. -/
def cx3Rows : List (List ℚ) :=
  List.replicate 45 (List.replicate 90 (mkRat 1 1)) ++
    List.replicate 89 (mkRat 1 1) :: List.replicate 44 (List.replicate 90 (mkRat 1 1))

/-- A two-value data line: a tiny input whose line loop succeeds but whose
dataframe construction fails (width 2 ≠ 90). -/
def cx3TinyText : String := "1 | 1 2"

/-- The all-NaN wide frame a parse with zero data lines yields. -/
def emptyWide : DfWide :=
  ⟨List.replicate lat.length (List.replicate long.length none)⟩

/-- A payload with every nullable field absent. -/
def samplePayload : FlightPayload :=
  ⟨none, none, none, none, none, none, none, none, none, none, false, none, false,
   none, none, none, none⟩

/-- Like `samplePayload` but with a callsign: a second write whose non-key
fields differ from the first. -/
def samplePayload2 : FlightPayload :=
  ⟨some "XYZ", none, none, none, none, none, none, none, none, none, false, none, false,
   none, none, none, none⟩

/-- A raw telemetry row with a timestamp but no entity identifier. -/
def rawMissingId : RawRow :=
  ⟨some 5, none, none, none, none, none, none, none, none, none, none, none, none,
   none, none, none⟩

/-- A raw telemetry row with no timestamp (dropped by normalization). -/
def rawNoTimestamp : RawRow :=
  ⟨none, some "abc123", none, none, none, none, none, none, none, none, none, none,
   none, none, none, none⟩

/-- Whether an endpoint outcome is the 404 "no data" signal. -/
def isNoData {α : Type} : ApiResult α → Bool
  | .notFound _ => true
  | _ => false

/-- Whether an endpoint outcome is the 500 infrastructure-error response. -/
def isInfraFailure {α : Type} : ApiResult α → Bool
  | .serverError _ => true
  | _ => false

/-- Whether a modelled python computation raised. -/
def isErr {ε α : Type} : Except ε α → Bool
  | .error _ => true
  | .ok _ => false

deriving instance DecidableEq for Except

/-! ## Helper lemmas -/

theorem le_foldl_max_init {α : Type} [LinearOrder α] :
    ∀ (l : List α) (a : α), a ≤ l.foldl max a := by
  intro l
  induction l with
  | nil => intro a; simp
  | cons b r ih =>
    intro a
    calc a ≤ max a b := le_max_left a b
    _ ≤ (b :: r).foldl max a := by simpa using ih (max a b)

theorem le_foldl_max_mem {α : Type} [LinearOrder α] :
    ∀ (l : List α) (a t : α), t ∈ l → t ≤ l.foldl max a := by
  intro l
  induction l with
  | nil => intro a t h; simp at h
  | cons b r ih =>
    intro a t h
    rcases List.mem_cons.mp h with h | h
    · subst h
      calc t ≤ max a t := le_max_right a t
      _ ≤ (t :: r).foldl max a := by simpa using le_foldl_max_init r (max a t)
    · simpa using ih (max a b) t h

theorem foldl_max_le {α : Type} [LinearOrder α] :
    ∀ (l : List α) (a t : α), a ≤ t → (∀ x ∈ l, x ≤ t) → l.foldl max a ≤ t := by
  intro l
  induction l with
  | nil => intro a t h _; simpa using h
  | cons b r ih =>
    intro a t h hall
    simpa using ih (max a b) t (max_le h (hall b (by simp))) (fun x hx => hall x (by simp [hx]))

theorem sqlMax_cons (a : ℤ) (l : List ℤ) : sqlMax (a :: l) = some (l.foldl max a) := by
  suffices h : ∀ (l : List ℤ) (a : ℤ),
      List.foldl (fun acc t =>
        match acc with
        | none => some t
        | some m => some (max m t)) (some a) l = some (l.foldl max a) by
    simpa [sqlMax] using h l a
  intro l
  induction l with
  | nil => intro a; rfl
  | cons b r ih => intro a; simpa using ih (max a b)

theorem sqlMax_nil_iff : ∀ {l : List ℤ}, sqlMax l = none ↔ l = [] := by
  intro l
  cases l with
  | nil => simp [sqlMax]
  | cons a r => simp [sqlMax_cons]

theorem sqlMax_le {l : List ℤ} {m : ℤ} (h : sqlMax l = some m) : ∀ t ∈ l, t ≤ m := by
  cases l with
  | nil => simp
  | cons a r =>
    rw [sqlMax_cons] at h
    intro t ht
    cases Option.some_inj.mp h
    rcases List.mem_cons.mp ht with h | h
    · subst h; exact le_foldl_max_init r t
    · exact le_foldl_max_mem r a t h

theorem foldl_max_self_or_mem {α : Type} [LinearOrder α] :
    ∀ (l : List α) (a : α), l.foldl max a = a ∨ l.foldl max a ∈ l := by
  intro l
  induction l with
  | nil => intro a; left; rfl
  | cons b r ih =>
    intro a
    have hstep : (b :: r).foldl max a = r.foldl max (max a b) := rfl
    rcases ih (max a b) with h | h
    · rcases le_total a b with hab | hab
      · right
        rw [hstep, h, max_eq_right hab]
        exact List.mem_cons_self b r
      · left
        rw [hstep, h, max_eq_left hab]
    · right
      rw [hstep]
      exact List.mem_cons_of_mem b h

theorem sqlMax_mem {l : List ℤ} {m : ℤ} (h : sqlMax l = some m) : m ∈ l := by
  cases l with
  | nil => simp [sqlMax] at h
  | cons a r =>
    rw [sqlMax_cons] at h
    cases Option.some_inj.mp h
    rcases foldl_max_self_or_mem r a with h | h
    · rw [h]; exact List.mem_cons_self a r
    · exact List.mem_cons_of_mem a h

theorem sqlMax_some {l : List ℤ} {t : ℤ} (hmem : t ∈ l) (hle : ∀ x ∈ l, x ≤ t) :
    sqlMax l = some t := by
  cases l with
  | nil => simp at hmem
  | cons a r =>
    rw [sqlMax_cons]
    have h1 : (a :: r).foldl max a ≤ t := by
      refine foldl_max_le _ _ _ (hle a (by simp)) hle |>.trans_eq rfl
    have h2 : t ≤ (a :: r).foldl max a := le_foldl_max_mem _ _ _ hmem
    have h3 : (a :: r).foldl max a = r.foldl max (max a a) := rfl
    rw [show r.foldl max a = (a :: r).foldl max a from by simp, le_antisymm h1 h2]

theorem maxWidth_mem_le {rows : List (List ℚ)} {r : List ℚ} (h : r ∈ rows) :
    r.length ≤ maxWidth rows := by
  exact le_foldl_max_mem _ 0 _ (List.mem_map.mpr ⟨r, h, rfl⟩)

/-! Fuel irrelevance and splitting lemmas for `pySplitAux`. -/

theorem pySplitAux_fuel (s0 : Char) (srest : List Char) :
    ∀ (f1 : ℕ) (l : List Char) (f2 : ℕ) (acc : List Char),
      l.length ≤ f1 → l.length ≤ f2 →
      pySplitAux s0 srest f1 acc l = pySplitAux s0 srest f2 acc l := by
  intro f1
  induction f1 with
  | zero =>
    intro l f2 acc h1 _
    have : l = [] := by
      cases l with
      | nil => rfl
      | cons c r => simp at h1
    subst this
    cases f2 <;> rfl
  | succ k ih =>
    intro l f2 acc h1 h2
    cases l with
    | nil => cases f2 <;> rfl
    | cons c r =>
      cases f2 with
      | zero => simp at h2
      | succ m =>
        show (if (s0 :: srest).isPrefixOf (c :: r) = true then _ else _)
            = (if (s0 :: srest).isPrefixOf (c :: r) = true then _ else _)
        by_cases hp : (s0 :: srest).isPrefixOf (c :: r) = true
        · have hd : (r.drop srest.length).length ≤ k := by
            simp only [List.length_drop]
            simp at h1
            omega
          have hd2 : (r.drop srest.length).length ≤ m := by
            simp only [List.length_drop]
            simp at h2
            omega
          rw [if_pos hp, if_pos hp, ih (r.drop srest.length) m [] hd hd2]
        · have hr : r.length ≤ k := by simp at h1; omega
          have hr2 : r.length ≤ m := by simp at h2; omega
          rw [if_neg hp, if_neg hp, ih r m (c :: acc) hr hr2]

theorem pySplitAux_no_head (s0 : Char) (srest : List Char) :
    ∀ (l : List Char) (fuel : ℕ) (acc : List Char),
      l.length ≤ fuel → s0 ∉ l →
      pySplitAux s0 srest fuel acc l = [acc.reverse ++ l] := by
  intro l
  induction l with
  | nil =>
    intro fuel acc _ _
    cases fuel <;> simp [pySplitAux]
  | cons d r ih =>
    intro fuel acc hlen hmem
    cases fuel with
    | zero => simp at hlen
    | succ k =>
      have hne : s0 ≠ d := fun h => hmem (h ▸ List.mem_cons_self d r)
      have hp : ¬(s0 :: srest).isPrefixOf (d :: r) = true := by
        rw [List.isPrefixOf_cons₂]
        simp [hne]
      show (if (s0 :: srest).isPrefixOf (d :: r) = true then _ else _) = _
      rw [if_neg hp]
      rw [ih k (d :: acc) (by simp at hlen; omega) (fun h => hmem (List.mem_cons_of_mem d h))]
      simp

theorem pySplitAux_sep_head (c : Char) :
    ∀ (line : List Char) (tail0 : List Char) (fuel : ℕ) (acc : List Char),
      line.length + 1 + tail0.length ≤ fuel → c ∉ line →
      pySplitAux c [] fuel acc (line ++ c :: tail0)
        = (acc.reverse ++ line) :: pySplitAux c [] (fuel - (line.length + 1)) [] tail0 := by
  intro line
  induction line with
  | nil =>
    intro tail0 fuel acc hlen _
    cases fuel with
    | zero => simp at hlen
    | succ k =>
      have hp : ([c] : List Char).isPrefixOf (c :: tail0) = true := by
        rw [List.isPrefixOf_cons₂]
        simp
      show (if ([c] : List Char).isPrefixOf (c :: tail0) = true then _ else _) = _
      rw [if_pos hp]
      simp
  | cons d r ih =>
    intro tail0 fuel acc hlen hmem
    cases fuel with
    | zero => simp at hlen
    | succ k =>
      have hne : c ≠ d := fun h => hmem (h ▸ List.mem_cons_self d r)
      have hp : ¬([c] : List Char).isPrefixOf (d :: (r ++ c :: tail0)) = true := by
        rw [List.isPrefixOf_cons₂]
        simp [hne]
      show (if ([c] : List Char).isPrefixOf (d :: (r ++ c :: tail0)) = true then _ else _) = _
      rw [if_neg hp]
      simp only [List.append_eq]
      rw [ih tail0 k (d :: acc) (by simp at hlen ⊢; omega)
        (fun h => hmem (List.mem_cons_of_mem d h))]
      have hrev : (d :: acc).reverse ++ r = acc.reverse ++ d :: r := by
        simp
      have hfuel : k - (r.length + 1) = k + 1 - ((d :: r).length + 1) := by
        simp only [List.length_cons]
        omega
      rw [hrev, hfuel]

theorem pySplit_join (c : Char) :
    ∀ (lines : List (List Char)), lines ≠ [] → (∀ l ∈ lines, c ∉ l) →
      pySplitOnStr [c] (joinWith c lines) = lines := by
  intro lines
  induction lines with
  | nil => intro h; exact absurd rfl h
  | cons x rest ih =>
    intro _ hmem
    cases rest with
    | nil =>
      show pySplitAux c [] x.length [] x = [x]
      rw [pySplitAux_no_head c [] x x.length [] le_rfl (hmem x (by simp))]
      rfl
    | cons y rest2 =>
      have hx : c ∉ x := hmem x (by simp)
      have hJ : joinWith c (x :: y :: rest2) = x ++ c :: joinWith c (y :: rest2) := rfl
      show pySplitAux c [] (joinWith c (x :: y :: rest2)).length [] (joinWith c (x :: y :: rest2))
          = x :: y :: rest2
      rw [hJ]
      have hlen : (x ++ c :: joinWith c (y :: rest2)).length
          = x.length + 1 + (joinWith c (y :: rest2)).length := by
        simp
        omega
      rw [hlen]
      rw [pySplitAux_sep_head c x (joinWith c (y :: rest2)) _ [] le_rfl hx]
      have harith : x.length + 1 + (joinWith c (y :: rest2)).length - (x.length + 1)
          = (joinWith c (y :: rest2)).length := by omega
      rw [harith]
      have : pySplitAux c [] (joinWith c (y :: rest2)).length [] (joinWith c (y :: rest2))
          = pySplitOnStr [c] (joinWith c (y :: rest2)) := rfl
      rw [this, ih (by simp) (fun l hl => hmem l (List.mem_cons_of_mem x hl))]
      simp

theorem dropWhile_eq_self_head {p : Char → Bool} {l : List Char}
    (h : ∀ d, l.head? = some d → p d = false) : l.dropWhile p = l := by
  cases l with
  | nil => rfl
  | cons a r => simp [List.dropWhile_cons, h a rfl]

theorem pyStrip_eq_self {l : List Char}
    (h1 : ∀ d, l.head? = some d → pyIsSpace d = false)
    (h2 : ∀ d, l.getLast? = some d → pyIsSpace d = false) : pyStrip l = l := by
  unfold pyStrip
  rw [dropWhile_eq_self_head h1]
  rw [dropWhile_eq_self_head (by
    intro d hd
    rw [List.head?_reverse] at hd
    exact h2 d hd)]
  exact List.reverse_reverse l

theorem joinWith_append_last (sep : Char) :
    ∀ (front : List (List Char)) (x : List Char), front ≠ [] →
      joinWith sep (front ++ [x]) = joinWith sep front ++ sep :: x := by
  intro front
  induction front with
  | nil => intro x h; exact absurd rfl h
  | cons y rest ih =>
    intro x _
    cases rest with
    | nil => rfl
    | cons z rest2 =>
      have h1 : joinWith sep ((y :: z :: rest2) ++ [x])
          = y ++ sep :: joinWith sep ((z :: rest2) ++ [x]) := rfl
      have h2 : joinWith sep (y :: z :: rest2) = y ++ sep :: joinWith sep (z :: rest2) := rfl
      rw [h1, ih x (by simp), h2]
      simp

/-! ## The counterexample input `cx3Text`, computed equationally
(the 16k-character input is far too deep for kernel evaluation, so the
line split, strip and per-line steps are established by the lemmas
above plus small per-line `decide`s). -/

theorem lineMeta_L90 (md : Metadata) : lineMeta md (drapLine 90) = .ok md := by
  unfold lineMeta
  rw [if_neg (by decide)]

theorem lineMeta_L89 (md : Metadata) : lineMeta md (drapLine 89) = .ok md := by
  unfold lineMeta
  rw [if_neg (by decide)]

theorem lineData_L90 : lineData (drapLine 90) = .ok (some (List.replicate 90 (mkRat 1 1))) := by
  decide

theorem lineData_L89 : lineData (drapLine 89) = .ok (some (List.replicate 89 (mkRat 1 1))) := by
  decide

theorem processLines_L90 (rest : List (List Char)) (md : Metadata) (acc : List (List ℚ)) :
    processLines (drapLine 90 :: rest) md acc
      = processLines rest md (acc ++ [List.replicate 90 (mkRat 1 1)]) := by
  simp only [processLines]
  rw [lineMeta_L90 md, lineData_L90]

theorem processLines_L89 (rest : List (List Char)) (md : Metadata) (acc : List (List ℚ)) :
    processLines (drapLine 89 :: rest) md acc
      = processLines rest md (acc ++ [List.replicate 89 (mkRat 1 1)]) := by
  simp only [processLines]
  rw [lineMeta_L89 md, lineData_L89]

theorem processLines_rep90 :
    ∀ (k : ℕ) (rest : List (List Char)) (md : Metadata) (acc : List (List ℚ)),
      processLines (List.replicate k (drapLine 90) ++ rest) md acc
        = processLines rest md (acc ++ List.replicate k (List.replicate 90 (mkRat 1 1))) := by
  intro k
  induction k with
  | zero => intro rest md acc; simp
  | succ n ih =>
    intro rest md acc
    have h1 : List.replicate (n + 1) (drapLine 90) ++ rest
        = drapLine 90 :: (List.replicate n (drapLine 90) ++ rest) := by
      rw [List.replicate_succ, List.cons_append]
    rw [h1, processLines_L90, ih]
    have h2 : List.replicate (n + 1) (List.replicate 90 (mkRat 1 1))
        = List.replicate 90 (mkRat 1 1) :: List.replicate n (List.replicate 90 (mkRat 1 1)) :=
      List.replicate_succ _ n
    rw [h2]
    congr 1
    simp

theorem stage1_cx3 : stage1 cx3Text = .ok (emptyMetadata, cx3Rows) := by
  have hmem : ∀ l ∈ cx3Lines, '\n' ∉ l := by
    intro l hl
    have : l = drapLine 90 ∨ l = drapLine 89 := by
      rcases List.mem_append.mp hl with h | h
      · exact Or.inl (List.mem_replicate.mp h).2
      · rcases List.mem_cons.mp h with h | h
        · exact Or.inr h
        · exact Or.inl (List.mem_replicate.mp h).2
    rcases this with h | h <;> rw [h] <;> decide
  have hcons : cx3Lines = drapLine 90 ::
      (List.replicate 44 (drapLine 90) ++ drapLine 89 :: List.replicate 44 (drapLine 90)) := by
    show List.replicate 45 (drapLine 90) ++ drapLine 89 :: List.replicate 44 (drapLine 90) = _
    rw [show (45 : ℕ) = 44 + 1 from rfl, List.replicate_succ, List.cons_append]
  have hhead : ∀ d, cx3Chars.head? = some d → pyIsSpace d = false := by
    intro d hd
    have h1 : cx3Chars = drapLine 90 ++ '\n' :: joinWith '\n'
        (List.replicate 44 (drapLine 90) ++ drapLine 89 :: List.replicate 44 (drapLine 90)) := by
      show joinWith '\n' cx3Lines = _
      rw [hcons]
      rcases List.exists_cons_of_ne_nil
        (show List.replicate 44 (drapLine 90) ++ drapLine 89 :: List.replicate 44 (drapLine 90) ≠ []
          by simp) with ⟨b, L, hb⟩
      rw [hb]
      rfl
    rw [h1, List.head?_append, show (drapLine 90).head? = some '1' from by decide] at hd
    simp at hd
    subst hd
    rfl
  have hlast : ∀ d, cx3Chars.getLast? = some d → pyIsSpace d = false := by
    intro d hd
    have h44 : List.replicate 44 (drapLine 90)
        = List.replicate 43 (drapLine 90) ++ [drapLine 90] := List.replicate_succ' 43 _
    have hfront : cx3Lines = (List.replicate 45 (drapLine 90)
        ++ drapLine 89 :: List.replicate 43 (drapLine 90)) ++ [drapLine 90] := by
      show List.replicate 45 (drapLine 90) ++ drapLine 89 :: List.replicate 44 (drapLine 90) = _
      rw [h44]
      simp
    have h1 : cx3Chars = joinWith '\n' (List.replicate 45 (drapLine 90)
        ++ drapLine 89 :: List.replicate 43 (drapLine 90)) ++ '\n' :: drapLine 90 := by
      show joinWith '\n' cx3Lines = _
      rw [hfront, joinWith_append_last _ _ _ (by simp)]
    rw [h1, List.getLast?_append,
      show ('\n' :: drapLine 90).getLast? = some '1' from by decide] at hd
    simp at hd
    subst hd
    rfl
  have hsplit : pySplitOnStr ("\n".data) cx3Chars = cx3Lines := by
    rw [show ("\n".data : List Char) = ['\n'] from rfl,
      show cx3Chars = joinWith '\n' cx3Lines from rfl]
    exact pySplit_join '\n' cx3Lines (by simp [cx3Lines]) hmem
  show processLines (pySplitOnStr ("\n".data) (pyStrip cx3Text.data)) emptyMetadata [] = _
  rw [show cx3Text.data = cx3Chars from rfl, pyStrip_eq_self hhead hlast, hsplit]
  show processLines (List.replicate 45 (drapLine 90)
    ++ drapLine 89 :: List.replicate 44 (drapLine 90)) emptyMetadata [] = _
  rw [processLines_rep90 45 (drapLine 89 :: List.replicate 44 (drapLine 90)) emptyMetadata [],
    processLines_L89, ← List.append_nil (List.replicate 44 (drapLine 90)),
    processLines_rep90 44 [] emptyMetadata _]
  have hfin : (([] ++ List.replicate 45 (List.replicate 90 (mkRat 1 1)))
      ++ [List.replicate 89 (mkRat 1 1)]) ++ List.replicate 44 (List.replicate 90 (mkRat 1 1))
      = cx3Rows := by
    simp [cx3Rows]
  rw [hfin]
  rfl

/-! ## Shape facts about the parsed dataframes -/

theorem buildWide_ok_shape {rows : List (List ℚ)} {w : DfWide} (h : buildWide rows = .ok w) :
    w.rows.length = lat.length ∧ ∀ r ∈ w.rows, r.length = long.length := by
  unfold buildWide at h
  by_cases he : rows.isEmpty = true
  · rw [if_pos he] at h
    cases h
    constructor
    · simp
    · intro r hr
      rw [List.eq_of_mem_replicate hr, List.length_replicate]
  · rw [if_neg he] at h
    by_cases h1 : maxWidth rows ≠ long.length
    · rw [if_pos h1] at h
      cases h
    · rw [if_neg h1] at h
      by_cases h2 : rows.length ≠ lat.length
      · rw [if_pos h2] at h
        cases h
      · rw [if_neg h2] at h
        cases h
        push_neg at h1 h2
        constructor
        · rw [List.length_map]
          exact h2
        · intro r hr
          rcases List.mem_map.mp hr with ⟨r0, hr0, hpad⟩
          have hle : r0.length ≤ maxWidth rows := maxWidth_mem_le hr0
          rw [← hpad, List.length_append, List.length_map, List.length_replicate, ← h1]
          omega

theorem buildWide_error_iff {rows : List (List ℚ)} (hne : rows ≠ []) :
    isErr (buildWide rows) = true ↔ (maxWidth rows ≠ long.length ∨ rows.length ≠ lat.length) := by
  unfold buildWide
  rw [if_neg (by simp [hne])]
  by_cases h1 : maxWidth rows ≠ long.length
  · rw [if_pos h1]
    simp [isErr, h1]
  · rw [if_neg h1]
    by_cases h2 : rows.length ≠ lat.length
    · rw [if_pos h2]
      simp [isErr, h1, h2]
    · rw [if_neg h2]
      simp [isErr, h1, h2]

theorem buildWide_ok_pad {rows : List (List ℚ)} {w : DfWide} (hne : rows ≠ [])
    (h : buildWide rows = .ok w) :
    w.rows = rows.map (fun r => r.map some ++ List.replicate (maxWidth rows - r.length)
      (none : Cell)) := by
  unfold buildWide at h
  rw [if_neg (by simp [hne])] at h
  by_cases h1 : maxWidth rows ≠ long.length
  · rw [if_pos h1] at h
    cases h
  · rw [if_neg h1] at h
    by_cases h2 : rows.length ≠ lat.length
    · rw [if_pos h2] at h
      cases h
    · rw [if_neg h2] at h
      cases h
      rfl

theorem parse_eq_of_stage1 {s : String} {md : Metadata} {rows : List (List ℚ)}
    (h : stage1 s = .ok (md, rows)) :
    parse_drap_data s = match buildWide rows with
      | .error e => .error e
      | .ok w => .ok (md, w, meltDf w) := by
  unfold parse_drap_data
  rw [h]

theorem parse_ok_shape {s : String} {md : Metadata} {w : DfWide} {l : DfLong}
    (h : parse_drap_data s = .ok (md, w, l)) :
    l = meltDf w ∧ w.rows.length = lat.length ∧ ∀ r ∈ w.rows, r.length = long.length := by
  cases h1 : stage1 s with
  | error e =>
    unfold parse_drap_data at h
    rw [h1] at h
    cases h
  | ok p =>
    obtain ⟨md0, rows⟩ := p
    rw [parse_eq_of_stage1 h1] at h
    cases h2 : buildWide rows with
    | error e =>
      rw [h2] at h
      cases h
    | ok w0 =>
      rw [h2] at h
      have h3 : md0 = md ∧ w0 = w ∧ meltDf w0 = l := by
        have := Except.ok.inj h
        simp only [Prod.mk.injEq] at this
        exact ⟨this.1, this.2.1, this.2.2⟩
      obtain ⟨hmd, hw, hl⟩ := h3
      subst hmd hw hl
      exact ⟨rfl, buildWide_ok_shape h2⟩

theorem zip_map_getD {α β γ : Type} (f : α → β → γ) (da : α) (db : β) :
    ∀ (A : List α) (B : List β), A.length = B.length →
      (A.zip B).map (fun p => f p.1 p.2)
        = (List.range A.length).map (fun i => f (A.getD i da) (B.getD i db)) := by
  intro A
  induction A with
  | nil => intro B _; simp
  | cons a A ih =>
    intro B h
    cases B with
    | nil => simp at h
    | cons b B =>
      have h' : A.length = B.length := by simpa using h
      rw [show (a :: A).length = A.length + 1 from rfl, List.range_succ_eq_map]
      simp only [List.zip_cons_cons, List.map_cons, List.map_map]
      congr 1
      rw [ih B h']
      apply List.map_congr_left
      intro i _
      rfl

theorem meltRows_eq_colMajor {w : DfWide} (h : w.rows.length = lat.length) :
    meltRows w = colMajorPoints w := by
  unfold meltRows colMajorPoints
  apply congrArg
  funext j
  have := zip_map_getD (fun la row => (⟨la, long.getD j 0, row.getD j none⟩ : LongRow))
    0 ([] : List Cell) lat w.rows h.symm
  simpa using this

theorem meltRows_length {w : DfWide} (h : w.rows.length = lat.length) :
    (meltRows w).length = lat.length * long.length := by
  unfold meltRows
  rw [List.length_flatMap]
  have hcongr : List.map (List.length ∘ (fun j =>
      (lat.zip w.rows).map (fun p => (⟨p.1, long.getD j 0, p.2.getD j none⟩ : LongRow))))
      (List.range long.length)
      = List.map (Function.const ℕ lat.length) (List.range long.length) := by
    apply List.map_congr_left
    intro j _
    simp [List.length_zip, h]
  rw [hcongr, List.map_const, List.sum_replicate, List.length_range, smul_eq_mul,
    Nat.mul_comm]

theorem rowGet_freq_absorption (r : LongRow) :
    rowGet "Absorption" r "Frequency_MHz" = .error .keyError := by
  unfold rowGet
  rw [if_neg (by decide), if_neg (by decide), if_neg (by decide)]

/-- The loader's column bug: on any long dataframe whose value column is
the one `melt` produces (`"Absorption"`), the first row's
`row["Frequency_MHz"]` lookup raises `KeyError`. -/
theorem insert_absorption_keyError {df : DfLong} (hv : df.value_name = "Absorption")
    (hne : df.rows ≠ []) (obs : ℤ) :
    insert_drap_data df obs = .error .keyError := by
  obtain ⟨r0, rest, hr⟩ := List.exists_cons_of_ne_nil hne
  unfold insert_drap_data
  rw [hr, hv, List.foldlM_cons]
  rw [show insertStep "Absorption" obs [] r0 = .error .keyError by
    unfold insertStep
    rw [rowGet_freq_absorption]]
  rfl

theorem meltRows_ne_nil {w : DfWide} (h : w.rows.length = lat.length) : meltRows w ≠ [] := by
  apply List.ne_nil_of_length_pos
  rw [meltRows_length h]
  decide

theorem parse_cx3_buildWide : ∃ w, buildWide cx3Rows = .ok w := by
  simp only [buildWide]
  rw [if_neg (show ¬cx3Rows.isEmpty = true from by decide),
    if_neg (show ¬maxWidth cx3Rows ≠ long.length from by decide),
    if_neg (show ¬cx3Rows.length ≠ lat.length from by decide)]
  exact ⟨_, rfl⟩

theorem parse_cx3_not_error : isErr (parse_drap_data cx3Text) = false := by
  obtain ⟨w, hw⟩ := parse_cx3_buildWide
  rw [parse_eq_of_stage1 stage1_cx3, hw]
  rfl

theorem latestFlightRows_none {db : List TelemetryRow}
    (h : sqlMax (db.map (fun r => r.time)) = none) : latestFlightRows db = [] := by
  unfold latestFlightRows
  rw [h]

theorem latestFlightRows_some {db : List TelemetryRow} {t : ℤ}
    (h : sqlMax (db.map (fun r => r.time)) = some t) :
    latestFlightRows db
      = ((db.filter (fun r => r.time == t)).map toFlightState).mergeSort flightLE := by
  unfold latestFlightRows
  rw [h]

theorem flight_result_nil {db : List TelemetryRow} (h : latestFlightRows db = []) :
    get_latest_flight_states (.ok db) = .notFound "No flight data available" := by
  unfold get_latest_flight_states
  dsimp only
  rw [h]

theorem flight_result_cons {db : List TelemetryRow} {r : FlightState} {rest : List FlightState}
    (h : latestFlightRows db = r :: rest) :
    get_latest_flight_states (.ok db) = .ok ⟨r.time, (r :: rest).length, r :: rest⟩ := by
  unfold get_latest_flight_states
  dsimp only
  rw [h]

theorem drap_result_none {db : List SnapRecord}
    (h : sqlMax (db.map (fun r => r.observed_at)) = none) :
    get_latest_drap_geojson (.ok db) = .notFound "No D-RAP data available" := by
  unfold get_latest_drap_geojson
  dsimp only
  rw [h]

theorem drap_result_some {db : List SnapRecord} {t : ℤ}
    (h : sqlMax (db.map (fun r => r.observed_at)) = some t) :
    get_latest_drap_geojson (.ok db)
      = (if (((db.filter (fun r => r.observed_at == t)).map toFeature).length == 0) = true
          then .notFound "No D-RAP data available"
          else .ok ⟨t, ((db.filter (fun r => r.observed_at == t)).map toFeature).length,
            (db.filter (fun r => r.observed_at == t)).map toFeature⟩) := by
  unfold get_latest_drap_geojson
  dsimp only
  rw [h]

/-! ## The claims -/

/-- C2: the claim says a record is persisted iff the cell's value is `> 0`,
all sharing one `observed_at`.  On the code this fails before any filtering:
`insert_drap_data` reads `row["Frequency_MHz"]`, but `parse_drap_data`'s
melt names the value column `"Absorption"`, so on every successfully parsed
grid the upsert raises `KeyError` at the first row and persists nothing. -/
theorem c2_insert_reads_missing_column :
    ∀ (s : String) (md : Metadata) (w : DfWide) (l : DfLong) (observed_at : ℤ),
      parse_drap_data s = .ok (md, w, l) →
      insert_drap_data l observed_at = .error .keyError := by
  intro s md w l obs h
  obtain ⟨hl, hlen, _⟩ := parse_ok_shape h
  subst hl
  exact insert_absorption_keyError rfl (meltRows_ne_nil hlen) obs

/-- C2 witness: the concrete parse of the empty input succeeds (an all-NaN
90×90 grid) and its upsert raises `KeyError`. -/
theorem c2_witness : insert_drap_data (meltDf emptyWide) 0 = .error .keyError :=
  c2_insert_reads_missing_column "" emptyMetadata emptyWide (meltDf emptyWide) 0 rfl

/-- C4: the skip branch is as claimed — an equal marker means zero writes
and an unchanged marker — but a differing marker does not produce a write:
the load step always raises `KeyError` (the loader's column bug), so the
cycle aborts with the store and marker untouched. -/
theorem c4_skip_correct_but_load_crashes :
    (∀ (last : Option String) (s : String) (obs : ℤ) (db : List SnapRecord)
        (md : Metadata) (w : DfWide) (l : DfLong),
        parse_drap_data s = .ok (md, w, l) →
        pyEqOptStr last (md.valid_at.getD "Unknown") = true →
        rap_extract_flow last s obs db = ⟨db, last, false, none⟩) ∧
    (∀ (last : Option String) (s : String) (obs : ℤ) (db : List SnapRecord)
        (md : Metadata) (w : DfWide) (l : DfLong),
        parse_drap_data s = .ok (md, w, l) →
        pyEqOptStr last (md.valid_at.getD "Unknown") = false →
        rap_extract_flow last s obs db = ⟨db, last, false, some .keyError⟩) := by
  constructor
  · intro last s obs db md w l h heq
    unfold rap_extract_flow
    rw [h]
    show (if pyEqOptStr last (md.valid_at.getD "Unknown") = true then _ else _) = _
    rw [if_pos heq]
  · intro last s obs db md w l h heq
    obtain ⟨hl, hlen, _⟩ := parse_ok_shape h
    subst hl
    unfold rap_extract_flow
    rw [h]
    show (if pyEqOptStr last (md.valid_at.getD "Unknown") = true then _ else _) = _
    rw [if_neg (by rw [heq]; exact Bool.false_ne_true)]
    rw [insert_absorption_keyError rfl (meltRows_ne_nil hlen) obs]

/-- C5: inserting the same `(time, icao24)` natural key twice — across two
`executemany` calls or within one batch — leaves exactly one stored row,
the first-written one, untouched (the duplicate is skipped, not an error). -/
theorem c5_telemetry_dedup :
    ∀ (t : ℤ) (id : String) (p1 p2 : FlightPayload) (db : List TelemetryRow),
      db.any (flightKey t id) = false →
      insertFlights (insertFlights db [⟨t, id, p1⟩]) [⟨t, id, p2⟩]
          = db ++ [(⟨t, id, p1⟩ : TelemetryRow)] ∧
      insertFlights db [⟨t, id, p1⟩, ⟨t, id, p2⟩] = db ++ [(⟨t, id, p1⟩ : TelemetryRow)] ∧
      ((db ++ [(⟨t, id, p1⟩ : TelemetryRow)]).filter (flightKey t id)).length = 1 := by
  intro t id p1 p2 db h
  have hkey1 : flightKey t id (⟨t, id, p1⟩ : TelemetryRow) = true := by simp [flightKey]
  have h1 : insertOneFlight db (⟨t, id, p1⟩ : TelemetryRow)
      = db ++ [(⟨t, id, p1⟩ : TelemetryRow)] := by
    unfold insertOneFlight
    rw [if_neg (by rw [show (⟨t, id, p1⟩ : TelemetryRow).time = t from rfl,
      show (⟨t, id, p1⟩ : TelemetryRow).icao24 = id from rfl, h]; exact Bool.false_ne_true)]
  have h2 : insertOneFlight (db ++ [(⟨t, id, p1⟩ : TelemetryRow)]) (⟨t, id, p2⟩ : TelemetryRow)
      = db ++ [(⟨t, id, p1⟩ : TelemetryRow)] := by
    unfold insertOneFlight
    rw [if_pos (by
      rw [show (⟨t, id, p2⟩ : TelemetryRow).time = t from rfl,
        show (⟨t, id, p2⟩ : TelemetryRow).icao24 = id from rfl, List.any_append]
      simp [hkey1])]
  have hfilter : ((db ++ [(⟨t, id, p1⟩ : TelemetryRow)]).filter (flightKey t id)).length = 1 := by
    rw [List.filter_append]
    rw [List.filter_eq_nil_iff.mpr (fun a ha => by
      have := List.any_eq_false.mp h
      simp [this a ha])]
    simp [hkey1]
  refine ⟨?_, ?_, hfilter⟩
  · show insertOneFlight (insertOneFlight db (⟨t, id, p1⟩ : TelemetryRow))
      (⟨t, id, p2⟩ : TelemetryRow) = _
    rw [h1, h2]
  · show insertOneFlight (insertOneFlight db (⟨t, id, p1⟩ : TelemetryRow))
      (⟨t, id, p2⟩ : TelemetryRow) = _
    rw [h1, h2]

/-- C5 witness: one concrete key inserted twice with different non-key
fields, into an empty table. -/
theorem c5_witness :
    insertFlights (insertFlights [] [⟨0, "abc", samplePayload⟩]) [⟨0, "abc", samplePayload2⟩]
        = [] ++ [(⟨0, "abc", samplePayload⟩ : TelemetryRow)] ∧
    insertFlights [] [⟨0, "abc", samplePayload⟩, ⟨0, "abc", samplePayload2⟩]
        = [] ++ [(⟨0, "abc", samplePayload⟩ : TelemetryRow)] ∧
    ((([] : List TelemetryRow) ++ [(⟨0, "abc", samplePayload⟩ : TelemetryRow)]).filter
        (flightKey 0 "abc")).length = 1 :=
  c5_telemetry_dedup 0 "abc" samplePayload samplePayload2 [] rfl

/-- C6: the claim says a record missing its entity identifier is dropped.
The code computes `str(row.get("icao24")).strip()`, so a missing id becomes
the non-empty string `"None"`, passes the `r[1]` truthiness filter, and is
inserted (with the partition call made for its timestamp). -/
theorem c6_missing_id_inserted_as_none :
    (insert_batch [rawMissingId] []).db = [⟨5, "None", samplePayload⟩] ∧
    (insert_batch [rawMissingId] []).partitionCall = some 5 ∧
    (insert_batch [rawNoTimestamp] []) = ⟨[], none, 0⟩ := by
  refine ⟨rfl, rfl, rfl⟩

/-- C10: an empty batch, or one whose every record loses its timestamp in
normalization, performs no database operation at all: no partition call,
nothing handed to `executemany`, and the stored state unchanged. -/
theorem c10_empty_batch_no_db_ops :
    ∀ (df : List RawRow) (db : List TelemetryRow),
      (df = [] ∨ ∀ r ∈ df, (clean_row r).time = none) →
      insert_batch df db = ⟨db, none, 0⟩ := by
  intro df db h
  cases hdf : df with
  | nil => rfl
  | cons r0 rest =>
    subst hdf
    rcases h with h | h
    · exact absurd h (by simp)
    · unfold insert_batch
      rw [if_neg (by simp)]
      rw [show ((r0 :: rest).map clean_row).filter (fun r => !r.time.isNone && r.icao24 != "")
          = [] from List.filter_eq_nil_iff.mpr (fun a ha => by
        rcases List.mem_map.mp ha with ⟨r, hr, hc⟩
        rw [← hc]
        simp [h r hr])]
      rfl

/-- C10 witness: a singleton batch whose record has no timestamp. -/
theorem c10_witness : insert_batch [rawNoTimestamp] [] = ⟨[], none, 0⟩ :=
  c10_empty_batch_no_db_ops [rawNoTimestamp] []
    (Or.inr (by intro r hr; rw [List.eq_of_mem_singleton hr]; rfl))

/-- C7 counterexample: with horizon 0 the purge does not delete all rows —
a row whose timestamp is not strictly before the purge instant survives
(`DELETE ... WHERE time < NOW()` is a strict comparison). -/
theorem c7_counterexample_horizon_zero :
    ¬ (∀ (db : List TelemetryRow) (now : ℤ),
        (BackendApi.cleanup_old_data db now 0).1 = []) := by
  intro h
  have := h [⟨0, "a", samplePayload⟩] 0
  exact absurd this (by decide)

/-- C7 amended: purge deletes exactly the rows strictly older than
`now − horizon` and the backend variant returns their count; horizon 0
deletes exactly the rows strictly before `now` (a row timestamped at or
after the purge instant is kept); data entirely at-or-newer than the
cutoff is untouched with 0 reported deleted; the flow-side variant deletes
the same set (and returns nothing). -/
theorem c7_purge_strict_boundary :
    ∀ (db : List TelemetryRow) (sdb : List SnapRecord) (now days : ℤ),
      (BackendApi.cleanup_old_data db now days).1
        = db.filter (fun r => !decide (r.time < now - days * secondsPerDay)) ∧
      (BackendApi.cleanup_old_data db now days).2
        = (db.filter (fun r => decide (r.time < now - days * secondsPerDay))).length ∧
      ((∀ r ∈ db, now - days * secondsPerDay ≤ r.time) →
        BackendApi.cleanup_old_data db now days = (db, 0)) ∧
      (BackendApi.cleanup_old_data db now 0).1
        = db.filter (fun r => !decide (r.time < now)) ∧
      FlowsDb.cleanup_old_data sdb now days
        = sdb.filter (fun r => !decide (r.observed_at < now - days * secondsPerDay)) := by
  intro db sdb now days
  refine ⟨rfl, rfl, ?_, ?_, rfl⟩
  · intro hall
    have hkeep : db.filter (fun r => !decide (r.time < now - days * secondsPerDay)) = db := by
      rw [List.filter_eq_self]
      intro r hr
      simp [not_lt.mpr (hall r hr)]
    have hdel : db.filter (fun r => decide (r.time < now - days * secondsPerDay)) = [] := by
      rw [List.filter_eq_nil_iff]
      intro r hr
      simp [not_lt.mpr (hall r hr)]
    show (db.filter (fun r => !decide (r.time < now - days * secondsPerDay)),
      (db.filter (fun r => decide (r.time < now - days * secondsPerDay))).length) = (db, 0)
    rw [hkeep, hdel]
    rfl
  · show db.filter (fun r => !decide (r.time < now - 0 * secondsPerDay)) = _
    have : now - 0 * secondsPerDay = now := by ring
    rw [this]

/-- C7 witness: a row timestamped after the cutoff survives with 0 deleted. -/
theorem c7_witness :
    BackendApi.cleanup_old_data [⟨100, "a", samplePayload⟩] 50 0
      = ([⟨100, "a", samplePayload⟩], 0) :=
  (c7_purge_strict_boundary [⟨100, "a", samplePayload⟩] [] 50 0).2.2.1 (by decide)

/-- C8: an empty table yields the explicit "no data" signal (HTTP 404 with
the endpoint's no-data detail), which is a distinct outcome from the
infrastructure-failure response (HTTP 500): an ok-state store never yields
the 500 response, and a failed store never yields the 404. -/
theorem c8_empty_distinct_from_failure :
    get_latest_flight_states (.ok []) = .notFound "No flight data available" ∧
    get_latest_drap_geojson (.ok []) = .notFound "No D-RAP data available" ∧
    (∀ db : List TelemetryRow, isInfraFailure (get_latest_flight_states (.ok db)) = false) ∧
    (∀ db : List SnapRecord, isInfraFailure (get_latest_drap_geojson (.ok db)) = false) ∧
    (∀ e : String, get_latest_flight_states (.error e)
        = .serverError ("Database error: " ++ e) ∧
      isNoData (get_latest_flight_states (.error e)) = false) ∧
    (∀ e : String, get_latest_drap_geojson (.error e)
        = .serverError ("Database error: " ++ e) ∧
      isNoData (get_latest_drap_geojson (.error e)) = false) := by
  refine ⟨rfl, rfl, ?_, ?_, fun e => ⟨rfl, rfl⟩, fun e => ⟨rfl, rfl⟩⟩
  · intro db
    unfold get_latest_flight_states
    dsimp only
    cases latestFlightRows db with
    | nil => rfl
    | cons r rest => rfl
  · intro db
    unfold get_latest_drap_geojson
    dsimp only
    cases sqlMax (db.map (fun r => r.observed_at)) with
    | none => rfl
    | some t =>
      split
      · rfl
      · split <;> rfl

/-- C9 amended: a successfully parsed grid's point list is the flattened
cross product in column-major order — all latitude points of the first
longitude band, in declared order, before those of the second — with total
length latitude-band count × longitude-band count. -/
theorem c9_melt_column_major :
    ∀ (s : String) (md : Metadata) (w : DfWide) (l : DfLong),
      parse_drap_data s = .ok (md, w, l) →
      l.rows = colMajorPoints w ∧ l.rows.length = lat.length * long.length ∧
      l.value_name = "Absorption" := by
  intro s md w l h
  obtain ⟨hl, hlen, _⟩ := parse_ok_shape h
  subst hl
  exact ⟨meltRows_eq_colMajor hlen, meltRows_length hlen, rfl⟩

/-- C9 witness: the empty input parses to the all-NaN grid, whose point
list is the column-major enumeration of 90 × 90 = 8100 points. -/
theorem c9_witness :
    (meltDf emptyWide).rows = colMajorPoints emptyWide ∧
    (meltDf emptyWide).rows.length = lat.length * long.length ∧
    (meltDf emptyWide).value_name = "Absorption" :=
  c9_melt_column_major "" emptyMetadata emptyWide (meltDf emptyWide) rfl

/-- C9 counterexample: the point sequence is not row-major.  On the parse
of the empty input, element 1 of the output is the second latitude of the
first longitude band (latitude 87, longitude −178), where the row-major
enumeration would put the second longitude of the first latitude band
(latitude 89, longitude −174). -/
theorem c9_counterexample_row_major :
    ¬ (∀ (s : String) (md : Metadata) (w : DfWide) (l : DfLong),
        parse_drap_data s = .ok (md, w, l) → l.rows = rowMajorPoints w) := by
  intro h
  have h1 : meltProbe "" 1 = some ⟨87, -178, none⟩ := by decide
  have h2 : rowMajorProbe "" 1 = some ⟨89, -174, none⟩ := by decide
  have h3 := h "" emptyMetadata emptyWide (meltDf emptyWide) rfl
  have h4 : meltProbe "" 1 = (meltDf emptyWide).rows.get? 1 := by
    unfold meltProbe
    rw [show parse_drap_data ""
      = .ok (emptyMetadata, emptyWide, meltDf emptyWide) from rfl]
  have h5 : rowMajorProbe "" 1 = (rowMajorPoints emptyWide).get? 1 := by
    unfold rowMajorProbe
    rw [show parse_drap_data ""
      = .ok (emptyMetadata, emptyWide, meltDf emptyWide) from rfl]
  rw [h4, h3] at h1
  rw [h5] at h2
  rw [h1] at h2
  exact absurd h2 (by decide)

/-- C3 counterexample: the parse does not fail when a data line's value
count mismatches the longitude-band count.  `cx3Text` has 90 data lines, 89
of them with 90 values and one with only 89 values; its line loop succeeds
with a short row and the whole parse still succeeds (pandas silently pads
the short row with NaN). -/
theorem c3_counterexample_short_line_padded :
    ¬ (∀ (s : String) (md : Metadata) (rows : List (List ℚ)),
        stage1 s = .ok (md, rows) →
        (∃ r ∈ rows, r.length ≠ long.length) →
        isErr (parse_drap_data s) = true) := by
  intro h
  have hshort : ∃ r ∈ cx3Rows, r.length ≠ long.length := by
    refine ⟨List.replicate 89 (mkRat 1 1), ?_, ?_⟩
    · show _ ∈ List.replicate 45 (List.replicate 90 (mkRat 1 1))
        ++ List.replicate 89 (mkRat 1 1) :: List.replicate 44 (List.replicate 90 (mkRat 1 1))
      exact List.mem_append_right _ (List.mem_cons_self _ _)
    · rw [List.length_replicate]
      decide
  have h2 := h cx3Text emptyMetadata cx3Rows stage1_cx3 hshort
  have h3 := parse_cx3_not_error
  rw [h2] at h3
  cases h3

/-- C3 amended: the parse fails exactly when the maximum value count over
the data lines differs from the longitude-band count or the data-line
count differs from the latitude-band count; an individual line shorter
than the widest is silently padded with NaN cells (never truncated); and
when the parse fails the ingestion cycle aborts with the store and marker
untouched. -/
theorem c3_parse_width_check :
    ∀ (s : String) (md : Metadata) (rows : List (List ℚ)),
      stage1 s = .ok (md, rows) → rows ≠ [] →
      ((isErr (parse_drap_data s) = true) ↔
        (maxWidth rows ≠ long.length ∨ rows.length ≠ lat.length)) ∧
      (∀ (md2 : Metadata) (w : DfWide) (l : DfLong),
        parse_drap_data s = .ok (md2, w, l) →
        w.rows = rows.map (fun r => r.map some
          ++ List.replicate (maxWidth rows - r.length) (none : Cell))) ∧
      (isErr (parse_drap_data s) = true →
        ∀ (last : Option String) (obs : ℤ) (db : List SnapRecord),
          ∃ e, rap_extract_flow last s obs db = ⟨db, last, false, some e⟩) := by
  intro s md rows h hne
  refine ⟨?_, ?_, ?_⟩
  · have hiff := buildWide_error_iff hne
    rw [parse_eq_of_stage1 h]
    cases hb : buildWide rows with
    | error e =>
      rw [hb] at hiff
      simp only [isErr] at hiff ⊢
      simpa using hiff
    | ok w =>
      rw [hb] at hiff
      simp only [isErr] at hiff ⊢
      simpa using hiff
  · intro md2 w l hp
    rw [parse_eq_of_stage1 h] at hp
    cases hb : buildWide rows with
    | error e =>
      rw [hb] at hp
      cases hp
    | ok w0 =>
      rw [hb] at hp
      have := Except.ok.inj hp
      simp only [Prod.mk.injEq] at this
      obtain ⟨_, hw, _⟩ := this
      rw [← hw]
      exact buildWide_ok_pad hne hb
  · intro herr last obs db
    cases hp : parse_drap_data s with
    | ok v =>
      rw [hp] at herr
      simp [isErr] at herr
    | error e =>
      refine ⟨e, ?_⟩
      unfold rap_extract_flow
      rw [hp]

/-- C3 witness: a single two-value data line passes the line loop but
fails the dataframe construction (width 2 ≠ 90 longitude bands), and the
failed parse writes nothing. -/
theorem c3_witness :
    ((isErr (parse_drap_data cx3TinyText) = true) ↔
      (maxWidth [[mkRat 1 1, mkRat 2 1]] ≠ long.length ∨
        ([[mkRat 1 1, mkRat 2 1]] : List (List ℚ)).length ≠ lat.length)) ∧
    (∀ (md2 : Metadata) (w : DfWide) (l : DfLong),
      parse_drap_data cx3TinyText = .ok (md2, w, l) →
      w.rows = [[mkRat 1 1, mkRat 2 1]].map (fun r => r.map some
        ++ List.replicate (maxWidth [[mkRat 1 1, mkRat 2 1]] - r.length) (none : Cell))) ∧
    (isErr (parse_drap_data cx3TinyText) = true →
      ∀ (last : Option String) (obs : ℤ) (db : List SnapRecord),
        ∃ e, rap_extract_flow last cx3TinyText obs db = ⟨db, last, false, some e⟩) :=
  c3_parse_width_check cx3TinyText emptyMetadata [[mkRat 1 1, mkRat 2 1]]
    (by decide) (by decide)

/-- C1: the latest-read queries are single consistent reads.  For any table
state, an ok response reports count = number of returned records, its
timestamp is the maximum stored one, the records are exactly the stored
records at that timestamp (flight rows up to the response ordering), and
no returned record carries another timestamp; and after writes at T1 then
T2 with T1 < T2 the response holds exactly T2's rows. -/
theorem c1_latest_snapshot_consistency :
    (∀ (db : List TelemetryRow) (res : FlightStatesResponse),
        get_latest_flight_states (.ok db) = .ok res →
        res.count = res.flights.length ∧
        sqlMax (db.map (fun r => r.time)) = some res.timestamp ∧
        res.flights.Perm ((db.filter (fun r => r.time == res.timestamp)).map toFlightState) ∧
        (∀ f ∈ res.flights, f.time = res.timestamp)) ∧
    (∀ (a b : List TelemetryRow) (t1 t2 : ℤ),
        t1 < t2 → (∀ r ∈ a, r.time = t1) → (∀ r ∈ b, r.time = t2) → b ≠ [] →
        ∃ res, get_latest_flight_states (.ok (a ++ b)) = .ok res ∧
          res.flights.Perm (b.map toFlightState) ∧ res.count = b.length) ∧
    (∀ (db : List SnapRecord) (res : DrapResponse),
        get_latest_drap_geojson (.ok db) = .ok res →
        res.count = res.features.length ∧
        sqlMax (db.map (fun r => r.observed_at)) = some res.timestamp ∧
        res.features = (db.filter (fun r => r.observed_at == res.timestamp)).map toFeature ∧
        (∀ f ∈ res.features, f.observed_at = res.timestamp)) ∧
    (∀ (a b : List SnapRecord) (t1 t2 : ℤ),
        t1 < t2 → (∀ r ∈ a, r.observed_at = t1) → (∀ r ∈ b, r.observed_at = t2) → b ≠ [] →
        ∃ res, get_latest_drap_geojson (.ok (a ++ b)) = .ok res ∧
          res.features = b.map toFeature ∧ res.count = b.length) := by
  refine ⟨?_, ?_, ?_, ?_⟩
  · intro db res h
    cases hrows : latestFlightRows db with
    | nil =>
      rw [flight_result_nil hrows] at h
      cases h
    | cons r rest =>
      rw [flight_result_cons hrows] at h
      injection h with h'
      subst h'
      cases hmax : sqlMax (db.map (fun r => r.time)) with
      | none =>
        exact absurd ((latestFlightRows_none hmax).symm.trans hrows) (by simp)
      | some t =>
        rw [latestFlightRows_some hmax] at hrows
        have hperm : (r :: rest).Perm ((db.filter (fun x => x.time == t)).map toFlightState) := by
          rw [← hrows]
          exact List.mergeSort_perm _ _
        have htime : ∀ f ∈ (r :: rest), f.time = t := by
          intro f hf
          have hf2 := hperm.mem_iff.mp hf
          rcases List.mem_map.mp hf2 with ⟨x, hx, hxf⟩
          have hxt : x.time = t := by
            have := (List.mem_filter.mp hx).2
            simpa using this
          rw [← hxf]
          exact hxt
        have hrt : r.time = t := htime r (List.mem_cons_self r rest)
        refine ⟨rfl, ?_, ?_, ?_⟩
        · exact (congrArg some hrt).symm
        · show (r :: rest).Perm ((db.filter (fun x => x.time == r.time)).map toFlightState)
          rw [hrt]
          exact hperm
        · show ∀ f ∈ (r :: rest), f.time = r.time
          rw [hrt]
          exact htime
  · intro a b t1 t2 hlt ha hb hbne
    have hmax : sqlMax ((a ++ b).map (fun r => r.time)) = some t2 := by
      apply sqlMax_some
      · obtain ⟨r0, rest0, hr0⟩ := List.exists_cons_of_ne_nil hbne
        have hmem : r0 ∈ a ++ b :=
          List.mem_append_right a (hr0 ▸ List.mem_cons_self r0 rest0)
        exact List.mem_map.mpr ⟨r0, hmem, hb r0 (hr0 ▸ List.mem_cons_self r0 rest0)⟩
      · intro x hx
        rcases List.mem_map.mp hx with ⟨r, hr, hxr⟩
        rcases List.mem_append.mp hr with hra | hrb
        · rw [← hxr, ha r hra]
          exact le_of_lt hlt
        · rw [← hxr, hb r hrb]
    have hfa : a.filter (fun r => r.time == t2) = [] :=
      List.filter_eq_nil_iff.mpr (fun r hr => by simp [ha r hr, hlt.ne])
    have hfb : b.filter (fun r => r.time == t2) = b :=
      List.filter_eq_self.mpr (fun r hr => by simp [hb r hr])
    have hfilter : (a ++ b).filter (fun r => r.time == t2) = b := by
      rw [List.filter_append, hfa, hfb]
      rfl
    have hrows : latestFlightRows (a ++ b) = ((b.map toFlightState).mergeSort flightLE) := by
      rw [latestFlightRows_some hmax, hfilter]
    have hne2 : latestFlightRows (a ++ b) ≠ [] := by
      rw [hrows]
      apply List.ne_nil_of_length_pos
      rw [(List.mergeSort_perm _ _).length_eq, List.length_map]
      exact List.length_pos.mpr hbne
    obtain ⟨r, rest, hcons⟩ := List.exists_cons_of_ne_nil hne2
    have hrr : (r :: rest) = (b.map toFlightState).mergeSort flightLE := hcons.symm.trans hrows
    refine ⟨⟨r.time, (r :: rest).length, r :: rest⟩, ?_, ?_, ?_⟩
    · exact flight_result_cons hcons
    · show (r :: rest).Perm (b.map toFlightState)
      rw [hrr]
      exact List.mergeSort_perm _ _
    · show (r :: rest).length = b.length
      rw [hrr, (List.mergeSort_perm _ _).length_eq, List.length_map]
  · intro db res h
    cases hmax : sqlMax (db.map (fun r => r.observed_at)) with
    | none =>
      rw [drap_result_none hmax] at h
      cases h
    | some t =>
      rw [drap_result_some hmax] at h
      by_cases hz : (((db.filter (fun r => r.observed_at == t)).map toFeature).length == 0) = true
      · rw [if_pos hz] at h
        cases h
      · rw [if_neg hz] at h
        injection h with h'
        subst h'
        refine ⟨rfl, rfl, rfl, ?_⟩
        intro f hf
        rcases List.mem_map.mp hf with ⟨x, hx, hxf⟩
        have hxt : x.observed_at = t := by
          have := (List.mem_filter.mp hx).2
          simpa using this
        rw [← hxf]
        exact hxt
  · intro a b t1 t2 hlt ha hb hbne
    have hmax : sqlMax ((a ++ b).map (fun r => r.observed_at)) = some t2 := by
      apply sqlMax_some
      · obtain ⟨r0, rest0, hr0⟩ := List.exists_cons_of_ne_nil hbne
        have hmem : r0 ∈ a ++ b :=
          List.mem_append_right a (hr0 ▸ List.mem_cons_self r0 rest0)
        exact List.mem_map.mpr ⟨r0, hmem, hb r0 (hr0 ▸ List.mem_cons_self r0 rest0)⟩
      · intro x hx
        rcases List.mem_map.mp hx with ⟨r, hr, hxr⟩
        rcases List.mem_append.mp hr with hra | hrb
        · rw [← hxr, ha r hra]
          exact le_of_lt hlt
        · rw [← hxr, hb r hrb]
    have hfa : a.filter (fun r => r.observed_at == t2) = [] :=
      List.filter_eq_nil_iff.mpr (fun r hr => by simp [ha r hr, hlt.ne])
    have hfb : b.filter (fun r => r.observed_at == t2) = b :=
      List.filter_eq_self.mpr (fun r hr => by simp [hb r hr])
    have hfilter : (a ++ b).filter (fun r => r.observed_at == t2) = b := by
      rw [List.filter_append, hfa, hfb]
      rfl
    have hz : ¬(((b.map toFeature).length == 0) = true) := by
      simp [List.length_eq_zero, hbne]
    refine ⟨⟨t2, (b.map toFeature).length, b.map toFeature⟩, ?_, rfl, ?_⟩
    · rw [drap_result_some hmax, hfilter, if_neg hz]
    · show (b.map toFeature).length = b.length
      rw [List.length_map]

/-- C1 witness: two writes at T1 = 1 then T2 = 2; the latest read returns
exactly the T2 row with count 1. -/
theorem c1_witness :
    ∃ res, get_latest_flight_states (.ok ([(⟨1, "a", samplePayload⟩ : TelemetryRow)]
        ++ [(⟨2, "b", samplePayload⟩ : TelemetryRow)])) = .ok res ∧
      res.flights.Perm ([(⟨2, "b", samplePayload⟩ : TelemetryRow)].map toFlightState) ∧
      res.count = [(⟨2, "b", samplePayload⟩ : TelemetryRow)].length :=
  c1_latest_snapshot_consistency.2.1 [⟨1, "a", samplePayload⟩] [⟨2, "b", samplePayload⟩] 1 2
    (by decide) (by decide) (by decide) (by decide)

end Capstone
